import Mathlib

/-!
# swoole_async.c : asynchronous whole-file read / write

A shallow embedding of `src/swoole_async.c`.

The C file keeps one process-wide table `php_sw_aio_callback` (a Zend
`HashTable` keyed by the four bytes of the descriptor), one flag
`php_swoole_aio_init`, and talks to the operating system (`open`, `fstat`,
`posix_memalign`, `free`, `close`), to the Zend engine (`zend_hash_find`,
`zend_hash_update`, `zend_error`, `call_user_function_ex`) and to the
swoole AIO facility (`swoole_aio_read`, `swoole_aio_write`).

All of that is made explicit state here:

* `World` holds the table, the flag, a flat file system, the table of open
  descriptors, the heap of I/O buffers, the queue of submitted AIO
  operations and the ordered trace of every observable effect;
* `Env` holds the outcomes of the calls whose result the C code cannot
  predict (which descriptor `open` hands out, whether `fstat` or the
  allocator fail, what the AIO submission returns, whether
  `call_user_function_ex` reports `SUCCESS`).

`zval_add_ref`, `MAKE_STD_ZVAL` and `TSRMLS_FETCH_FROM_CTX` touch none of
these components and are left out.  `zval_ptr_dtor(&zcontent)` is part of the
model: `ZVAL_STRINGL(zcontent, req->file_content, ret, 0)` does not copy, so
destroying the zval releases the buffer of the request.

A user callback is recorded as a trace event; what the PHP code of the
callback does (keeping a reference to its arguments included) is outside the
C file.  A release of a block that is already dead is recorded in the trace
like any other release; what the allocator does with it is not modelled.
-/

namespace SwooleAsync

/-! ## Constants and machine integers -/

/-- `#define PHP_SWOOLE_AIO_MAXEVENTS 128`. -/
def PHP_SWOOLE_AIO_MAXEVENTS : Int := 128

/-- `#define PHP_SWOOLE_AIO_MAX_FILESIZE 4194304`. -/
def PHP_SWOOLE_AIO_MAX_FILESIZE : Int := 4194304

/-- Conversion of a wide integer to C `int` (32 bit, two's complement). -/
def to_int (x : Int) : Int := (x + 2147483648) % 4294967296 - 2147483648

/-- Conversion of a wide integer to `uint32_t`. -/
def to_uint32 (x : Int) : Int := x % 4294967296

/-- `sizeof(int)`, the key length handed to the Zend hash functions. -/
def sizeof_int : Nat := 4

/-- `EBADF`, the error of an operation the descriptor was not opened for. -/
def EBADF : Int := 9

/-- `EFAULT`, the error of a transfer whose buffer is not accessible memory. -/
def EFAULT : Int := 14

/-! ## Data model -/

/-- Modelled from the spec: the constants `SW_AIO_READ` and `SW_AIO_WRITE` of
`async.h` are not part of the sources; the spec gives the operation kind as
the two-valued enumeration Read / Write. -/
inductive AioType where
  | SW_AIO_READ
  | SW_AIO_WRITE
deriving DecidableEq, Repr

/-- The flags of `open(2)` that matter here. -/
inductive OFlag where
  | O_RDONLY
  | O_WRONLY
  | O_RDWR
  | O_CREAT
  | O_DIRECT
deriving DecidableEq, Repr

/-- The values handed to a user callback: the file name zval and the content
built by `ZVAL_STRINGL`. -/
inductive zval where
  | filename (s : String)
  /-- a string whose bytes lie inside a live block -/
  | stringl (bytes : List Nat)
  /-- a string of `len` bytes at `ptr` that does not lie inside a live block:
  its bytes are not determined -/
  | stringl_dead (ptr : Nat) (len : Int)
deriving DecidableEq, Repr

/-- `swoole_async_request`.  `callback = none` is the `NULL` pointer;
`file_content` is the address of the buffer. -/
structure swoole_async_request where
  callback : Option Nat
  filename : String
  fd : Int
  offset : Int
  type : AioType
  once : Nat
  file_content : Nat
  content_length : Int
deriving DecidableEq, Repr

/-- Modelled from the spec: `swAio_event` is declared in `async.h`, which is
not part of the sources; the completion is given the operation's descriptor
and a signed result code (negative: OS error code, non-negative: bytes
transferred). -/
structure swAio_event where
  fd : Int
  ret : Int
deriving DecidableEq, Repr

/-- The messages passed to `zend_error(E_WARNING, ...)`, one constructor per
format string of the C file. -/
inductive Warning where
  /-- "swoole_async: onAsyncComplete callback not found[1]" -/
  | callback_not_found_1
  /-- "swoole_async: onAsyncComplete callback not found[2]" -/
  | callback_not_found_2
  /-- "swoole_async: Aio Error: %s[%d]" with `strerror(-ret)` and `(int) ret` -/
  | aio_error (strerror_arg : Int) (code : Int)
  /-- "swoole_async: return length < req->length." -/
  | return_length_short
  /-- "swoole_async: onAsyncComplete handler error" -/
  | handler_error
  /-- "swoole_async_readfile: open file failed. Error: %s[%d]" -/
  | readfile_open_failed
  /-- "swoole_async_readfile: fstat failed. Error: %s[%d]" -/
  | readfile_fstat_failed
  /-- "swoole_async_readfile: file is empty." -/
  | readfile_empty
  /-- "swoole_async_readfile: file_size[size=%ld|max_size=%d] is too big. ..." -/
  | readfile_too_big (size : Int) (max_size : Int)
  /-- "posix_memalign failed. Error: %s[%d]" -/
  | posix_memalign_failed
  /-- "malloc failed. Error: %s[%d]" -/
  | malloc_failed
  /-- "swoole_async_readfile add to hashtable failed" -/
  | readfile_hashtable_failed
  /-- "swoole_async_writefile: file is empty." -/
  | writefile_empty
  /-- "swoole_async_writefile: file_size[size=%d|max_size=%d] is too big. ..." -/
  | writefile_too_big (size : Int) (max_size : Int)
  /-- "swoole_async_writefile: open file failed. Error: %s[%d]" -/
  | writefile_open_failed
  /-- "swoole_async_writefile add to hashtable failed" -/
  | writefile_hashtable_failed
deriving DecidableEq, Repr

/-- One submitted operation of the AIO facility. -/
structure AioOp where
  kind : AioType
  fd : Int
  buf : Nat
  len : Int
  offset : Int
deriving DecidableEq, Repr

/-- The observable effects, in the order the C code performs them. -/
inductive Event where
  | sys_open (pathname : String) (flags : List OFlag) (result : Int)
  | sys_close (fd : Int)
  | sys_free (ptr : Nat)
  | zend_error (msg : Warning)
  | call_user_function_ex (callback : Option Nat) (args : List zval)
  | php_swoole_check_reactor
  | swoole_aio_init (max_events : Int)
  | swoole_aio_set_callback
  | php_swoole_try_run_reactor
  | swoole_aio_submit (op : AioOp) (result : Int)
deriving DecidableEq, Repr

/-- An open descriptor: the file it names and the flags it was opened with. -/
structure OpenFile where
  path : String
  flags : List OFlag
deriving DecidableEq, Repr

/-- The whole state the C file reads and writes. -/
structure World where
  /-- the Zend hash table `php_sw_aio_callback`, in insertion order -/
  php_sw_aio_callback : List (Int × swoole_async_request)
  /-- `static char php_swoole_aio_init` -/
  php_swoole_aio_init : Nat
  /-- the file system: path and content -/
  files : List (String × List Nat)
  /-- the descriptors that are open, most recently opened first -/
  fdtable : List (Int × OpenFile)
  /-- the live heap blocks: address and content -/
  heap : List (Nat × List Nat)
  /-- the operations submitted to the AIO facility and not yet completed -/
  aio_queue : List AioOp
  /-- every effect so far, oldest first -/
  trace : List Event
deriving DecidableEq, Repr

/-- The outcomes the environment chooses during one call. -/
structure Env where
  /-- the descriptor `open` hands out, `none` when the kernel refuses -/
  open_fd : Option Nat
  /-- whether `fstat` succeeds -/
  fstat_ok : Bool
  /-- the address the allocator returns, `none` when it fails -/
  alloc : Option Nat
  /-- the return value of `swoole_aio_read` / `swoole_aio_write` -/
  aio_ret : Int
  /-- whether `call_user_function_ex` returns `SUCCESS` -/
  call_success : Bool
deriving DecidableEq, Repr

/-- The compile-time and system configuration. -/
structure Config where
  /-- whether `HAVE_LINUX_NATIVE_AIO` is defined -/
  native_aio : Bool
  /-- the value of `sysconf(_SC_PAGESIZE)` -/
  pagesize : Int
deriving DecidableEq, Repr

/-! ## Association lists -/

/-- First value stored under key `k`. -/
def assoc_find {κ α : Type} [DecidableEq κ] : List (κ × α) → κ → Option α
  | [], _ => none
  | (k', v) :: t, k => if k' = k then some v else assoc_find t k

/-- Replace the first value stored under `k`, or append the pair. -/
def assoc_set {κ α : Type} [DecidableEq κ] : List (κ × α) → κ → α → List (κ × α)
  | [], k, v => [(k, v)]
  | (k', v') :: t, k, v =>
    if k' = k then (k, v) :: t else (k', v') :: assoc_set t k v

/-- Remove the first pair stored under `k`. -/
def assoc_erase {κ α : Type} [DecidableEq κ] : List (κ × α) → κ → List (κ × α)
  | [], _ => []
  | (k', v') :: t, k => if k' = k then t else (k', v') :: assoc_erase t k

/-! ## Zend engine -/

/-- `zend_hash_find` on a table keyed by the bytes of an `int`: the stored
element, or `none` for `FAILURE`. -/
def zend_hash_find (ht : List (Int × swoole_async_request)) (key : Int) :
    Option swoole_async_request :=
  assoc_find ht key

/-- `zend_hash_update`: `FAILURE` (`none`) only for an empty key; otherwise the
element is stored under the key, replacing the element already there. -/
def zend_hash_update (ht : List (Int × swoole_async_request)) (key : Int)
    (nKeyLength : Nat) (data : swoole_async_request) :
    Option (List (Int × swoole_async_request)) :=
  if nKeyLength = 0 then none else some (assoc_set ht key data)

/-- Append one effect to the trace. -/
def emit (w : World) (e : Event) : World :=
  { w with trace := w.trace ++ [e] }

/-- `zend_error(E_WARNING, msg)`. -/
def zend_error (w : World) (msg : Warning) : World :=
  emit w (Event.zend_error msg)

/-! ## Operating system -/

/-- `open(pathname, flags, 0644)`: `-1` when the kernel refuses or when the file
is missing and `O_CREAT` is not given; otherwise the descriptor handed out,
entered in the descriptor table (the file is created empty under
`O_CREAT`). -/
def sys_open (env : Env) (w : World) (pathname : String) (flags : List OFlag) :
    Int × World :=
  match env.open_fd with
  | none => (-1, emit w (Event.sys_open pathname flags (-1)))
  | some fd =>
    match assoc_find w.files pathname with
    | some _ =>
      ((fd : Int), emit { w with fdtable := ((fd : Int), ⟨pathname, flags⟩) :: w.fdtable }
        (Event.sys_open pathname flags fd))
    | none =>
      if OFlag.O_CREAT ∈ flags then
        ((fd : Int), emit { w with files := w.files ++ [(pathname, [])],
                                   fdtable := ((fd : Int), ⟨pathname, flags⟩) :: w.fdtable }
          (Event.sys_open pathname flags fd))
      else (-1, emit w (Event.sys_open pathname flags (-1)))

/-- `fstat(fd, &file_stat)`: the `st_size` of the file behind the descriptor,
`none` for a negative return. -/
def sys_fstat (env : Env) (w : World) (fd : Int) : Option Int :=
  if env.fstat_ok then
    match assoc_find w.fdtable fd with
    | none => none
    | some f =>
      match assoc_find w.files f.path with
      | none => none
      | some data => some (data.length : Int)
  else none

/-- `posix_memalign(&p, alignment, size)`: the address of a fresh block of
`size` bytes, `none` for a non-zero return. -/
def posix_memalign (env : Env) (w : World) (_alignment : Int) (size : Int) :
    Option Nat × World :=
  match env.alloc with
  | none => (none, w)
  | some p => (some p, { w with heap := (p, List.replicate size.toNat 0) :: w.heap })

/-- `sw_malloc(size)`: the address of a fresh block, `none` for `NULL`. -/
def sw_malloc (env : Env) (w : World) (size : Int) : Option Nat × World :=
  match env.alloc with
  | none => (none, w)
  | some p => (some p, { w with heap := (p, List.replicate size.toNat 0) :: w.heap })

/-- `free(ptr)`: the release of the block at `ptr`. -/
def sys_free (w : World) (ptr : Nat) : World :=
  emit { w with heap := assoc_erase w.heap ptr } (Event.sys_free ptr)

/-- `close(fd)`. -/
def sys_close (w : World) (fd : Int) : World :=
  emit { w with fdtable := assoc_erase w.fdtable fd } (Event.sys_close fd)

/-- The `len` bytes at `ptr`: determined (`some`) only when `ptr` is a live
block of at least `len` bytes and `len` is not negative. -/
def heap_read (w : World) (ptr : Nat) (len : Int) : Option (List Nat) :=
  match assoc_find w.heap ptr with
  | none => none
  | some block =>
    if 0 ≤ len ∧ len.toNat ≤ block.length then some (block.take len.toNat) else none

/-- Overwrite the beginning of the block at `ptr` with `data`. -/
def heap_write (w : World) (ptr : Nat) (data : List Nat) : World :=
  match assoc_find w.heap ptr with
  | none => w
  | some old => { w with heap := assoc_set w.heap ptr (data ++ old.drop data.length) }

/-- `memcpy(dst, src, n)` from a PHP string into a heap block. -/
def memcpy (w : World) (dst : Nat) (src : List Nat) (n : Int) : World :=
  heap_write w dst (src.take n.toNat)

/-! ## The AIO facility -/

/-- Modelled from the spec: `swoole_aio_read` and `swoole_aio_write` live in the
AIO facility, which is not part of the sources (`submit_read(fd, buffer,
length, offset)`, `submit_write(fd, buffer, length, offset)`).  A submission
the facility accepts (return value not negative) is queued until the kernel
completes it. -/
def swoole_aio_submit (env : Env) (w : World) (op : AioOp) : Int × World :=
  let w1 := emit w (Event.swoole_aio_submit op env.aio_ret)
  if env.aio_ret < 0 then (env.aio_ret, w1)
  else (env.aio_ret, { w1 with aio_queue := w1.aio_queue ++ [op] })

/-- `swoole_aio_read(fd, outbuf, size, offset)`. -/
def swoole_aio_read (env : Env) (w : World) (fd : Int) (outbuf : Nat) (size : Int)
    (offset : Int) : Int × World :=
  swoole_aio_submit env w ⟨AioType.SW_AIO_READ, fd, outbuf, size, offset⟩

/-- `swoole_aio_write(fd, inbuf, size, offset)`. -/
def swoole_aio_write (env : Env) (w : World) (fd : Int) (inbuf : Nat) (size : Int)
    (offset : Int) : Int × World :=
  swoole_aio_submit env w ⟨AioType.SW_AIO_WRITE, fd, inbuf, size, offset⟩

/-- The oldest queued operation on descriptor `fd`, and the queue without it. -/
def queue_take : List AioOp → Int → Option (AioOp × List AioOp)
  | [], _ => none
  | op :: t, fd =>
    if op.fd = fd then some (op, t)
    else match queue_take t fd with
      | none => none
      | some (op', t') => some (op', op :: t')

/-- Whether a descriptor opened with `flags` may be read. -/
def can_read (flags : List OFlag) : Bool :=
  decide (OFlag.O_RDONLY ∈ flags) || decide (OFlag.O_RDWR ∈ flags)

/-- Whether a descriptor opened with `flags` may be written. -/
def can_write (flags : List OFlag) : Bool :=
  decide (OFlag.O_WRONLY ∈ flags) || decide (OFlag.O_RDWR ∈ flags)

/-- Modelled from the spec: the kernel side of the AIO facility is not part of
the sources.  It performs the oldest queued operation on `fd` and delivers
`(fd, ret)` to the installed callback: a read transfers the bytes of the file
from `offset` on, at most `len` of them, into the buffer and reports their
number; a write stores the first `len` bytes of the buffer into the file at
`offset` and reports their number; an operation the descriptor was not opened
for reports `-EBADF`, a transfer that does not fit a live block `-EFAULT`.
`none` when nothing is queued on `fd`. -/
def aio_complete (w : World) (fd : Int) : Option (World × swAio_event) :=
  match queue_take w.aio_queue fd with
  | none => none
  | some (op, rest) =>
    let w1 := { w with aio_queue := rest }
    match assoc_find w1.fdtable fd with
    | none => some (w1, ⟨fd, -EBADF⟩)
    | some f =>
      match assoc_find w1.files f.path with
      | none => some (w1, ⟨fd, -EBADF⟩)
      | some data =>
        match op.kind with
        | AioType.SW_AIO_READ =>
          if can_read f.flags then
            let got := (data.drop op.offset.toNat).take op.len.toNat
            match heap_read w1 op.buf (got.length : Int) with
            | none => some (w1, ⟨fd, -EFAULT⟩)
            | some _ => some (heap_write w1 op.buf got, ⟨fd, (got.length : Int)⟩)
          else some (w1, ⟨fd, -EBADF⟩)
        | AioType.SW_AIO_WRITE =>
          if can_write f.flags then
            match heap_read w1 op.buf op.len with
            | none => some (w1, ⟨fd, -EFAULT⟩)
            | some src =>
              let data' := data.take op.offset.toNat ++ src
                ++ data.drop (op.offset.toNat + src.length)
              some ({ w1 with files := assoc_set w1.files f.path data' },
                ⟨fd, (src.length : Int)⟩)
          else some (w1, ⟨fd, -EBADF⟩)

/-- Modelled from the spec: the macro `SW_CHECK_RETURN` of `php_swoole.h` is not
part of the sources; a submission returns a boolean-style result, `FALSE` for
a negative status and `TRUE` otherwise. -/
def SW_CHECK_RETURN (s : Int) : Bool :=
  if s < 0 then false else true

/-! ## swoole_async.c -/

/-- `php_swoole_check_aio`: the first call starts the reactor, creates the AIO
facility with `PHP_SWOOLE_AIO_MAXEVENTS`, installs the completion callback and
sets the flag; later calls do nothing. -/
def php_swoole_check_aio (w : World) : World :=
  if w.php_swoole_aio_init = 0 then
    let w1 := emit w Event.php_swoole_check_reactor
    let w2 := emit w1 (Event.swoole_aio_init PHP_SWOOLE_AIO_MAXEVENTS)
    let w3 := emit w2 Event.swoole_aio_set_callback
    let w4 := emit w3 Event.php_swoole_try_run_reactor
    { w4 with php_swoole_aio_init := 1 }
  else w

/-- `ZVAL_STRINGL(zcontent, s, l, 0)`: a string zval over the `l` bytes at `s`,
without copy. -/
def ZVAL_STRINGL (w : World) (s : Nat) (l : Int) : zval :=
  match heap_read w s l with
  | some bytes => zval.stringl bytes
  | none => zval.stringl_dead s l

/-- The arguments `php_swoole_aio_onComplete` builds for the user callback. -/
def callback_args (w : World) (req : swoole_async_request) (ret : Int) : List zval :=
  if req.type = AioType.SW_AIO_READ then
    [zval.filename req.filename, ZVAL_STRINGL w req.file_content (to_int ret)]
  else [zval.filename req.filename]

/-- `zval_ptr_dtor(&zcontent)` at the end of `php_swoole_aio_onComplete`: the
zval made by `MAKE_STD_ZVAL` holds its only reference and is destroyed.  For a
read, `ZVAL_STRINGL(..., 0)` made it point at `req->file_content` without
copy, so the destructor releases that block; for a write the zval was given
no value and no block is released. -/
def zval_ptr_dtor (w : World) (req : swoole_async_request) : World :=
  if req.type = AioType.SW_AIO_READ then sys_free w req.file_content else w

/-- `php_swoole_aio_onComplete(event)`. -/
def php_swoole_aio_onComplete (env : Env) (w : World) (event : swAio_event) : World :=
  match zend_hash_find w.php_sw_aio_callback event.fd with
  | none => zend_error w Warning.callback_not_found_1
  | some req =>
    if req.callback = none ∧ req.type = AioType.SW_AIO_READ then
      zend_error w Warning.callback_not_found_2
    else
      let ret := event.ret
      if ret < 0 then
        zend_error w (Warning.aio_error (-ret) (to_int ret))
      else
        let w1 := if ret < req.content_length then
            zend_error w Warning.return_length_short else w
        let w2 := emit w1
          (Event.call_user_function_ex req.callback (callback_args w1 req ret))
        if env.call_success = false then
          zend_error w2 Warning.handler_error
        else
          let w3 := if req.once = 1 then
              sys_close (sys_free w2 req.file_content) event.fd
            else w2
          zval_ptr_dtor w3 req

/-- The value of `open_flag` in both `PHP_FUNCTION`s. -/
def open_flag (cfg : Config) : List OFlag :=
  if cfg.native_aio then [OFlag.O_RDONLY, OFlag.O_DIRECT] else [OFlag.O_RDONLY]

/-- The value of `buf_len` in `swoole_async_readfile`. -/
def readfile_buf_len (cfg : Config) (st_size : Int) : Int :=
  if cfg.native_aio then
    to_int (st_size + (cfg.pagesize - Int.tmod st_size cfg.pagesize))
  else to_int st_size

/-- `PHP_FUNCTION(swoole_async_readfile)` with arguments `filename` and `cb`;
the result is `RETURN_TRUE` / `RETURN_FALSE`. -/
def swoole_async_readfile (cfg : Config) (env : Env) (w : World)
    (filename : String) (cb : Nat) : Bool × World :=
  match sys_open env w filename (open_flag cfg) with
  | (fd, w1) =>
    if fd < 0 then (false, zend_error w1 Warning.readfile_open_failed)
    else
      match sys_fstat env w1 fd with
      | none => (false, zend_error w1 Warning.readfile_fstat_failed)
      | some st_size =>
        if st_size ≤ 0 then (false, zend_error w1 Warning.readfile_empty)
        else if st_size > PHP_SWOOLE_AIO_MAX_FILESIZE then
          (false, zend_error w1
            (Warning.readfile_too_big st_size PHP_SWOOLE_AIO_MAX_FILESIZE))
        else
          let buf_len := readfile_buf_len cfg st_size
          match (if cfg.native_aio then posix_memalign env w1 cfg.pagesize buf_len
                 else sw_malloc env w1 buf_len) with
          | (none, w2) =>
            (false, zend_error w2
              (if cfg.native_aio then Warning.posix_memalign_failed
               else Warning.malloc_failed))
          | (some fcnt, w2) =>
            let req : swoole_async_request :=
              { fd := fd, filename := filename, callback := some cb,
                file_content := fcnt, once := 1, type := AioType.SW_AIO_READ,
                content_length := to_uint32 st_size, offset := 0 }
            match zend_hash_update w2.php_sw_aio_callback fd sizeof_int req with
            | none => (false, zend_error w2 Warning.readfile_hashtable_failed)
            | some ht =>
              let w3 := { w2 with php_sw_aio_callback := ht }
              let w4 := php_swoole_check_aio w3
              match swoole_aio_read env w4 fd fcnt buf_len 0 with
              | (s, w5) => (SW_CHECK_RETURN s, w5)

/-- `PHP_FUNCTION(swoole_async_writefile)` with arguments `filename`, the
payload `fcnt` and the optional `cb` (`none` when omitted). -/
def swoole_async_writefile (cfg : Config) (env : Env) (w : World)
    (filename : String) (fcnt : List Nat) (cb : Option Nat) : Bool × World :=
  let fcnt_len : Int := to_int (fcnt.length : Int)
  if fcnt_len ≤ 0 then (false, zend_error w Warning.writefile_empty)
  else if fcnt_len > PHP_SWOOLE_AIO_MAX_FILESIZE then
    (false, zend_error w
      (Warning.writefile_too_big fcnt_len PHP_SWOOLE_AIO_MAX_FILESIZE))
  else
    match sys_open env w filename (open_flag cfg) with
    | (fd, w1) =>
      if fd < 0 then (false, zend_error w1 Warning.writefile_open_failed)
      else
        match posix_memalign env w1 cfg.pagesize fcnt_len with
        | (none, w2) => (false, zend_error w2 Warning.posix_memalign_failed)
        | (some wt_cnt, w2) =>
          let req : swoole_async_request :=
            { fd := fd, filename := filename, callback := cb,
              type := AioType.SW_AIO_WRITE, file_content := wt_cnt, once := 1,
              content_length := to_uint32 fcnt_len, offset := 0 }
          match zend_hash_update w2.php_sw_aio_callback fd sizeof_int req with
          | none => (false, zend_error w2 Warning.writefile_hashtable_failed)
          | some ht =>
            let w3 := { w2 with php_sw_aio_callback := ht }
            let w4 := memcpy w3 wt_cnt fcnt fcnt_len
            let w5 := php_swoole_check_aio w4
            match swoole_aio_write env w5 fd wt_cnt fcnt_len 0 with
            | (s, w6) => (SW_CHECK_RETURN s, w6)

/-! ## Observations on traces -/

/-- The user-callback invocations of a trace, in order. -/
def calls : List Event → List (Option Nat × List zval)
  | [] => []
  | Event.call_user_function_ex cb args :: t => (cb, args) :: calls t
  | _ :: t => calls t

/-- How often block `ptr` is freed in a trace. -/
def count_free (ptr : Nat) (tr : List Event) : Nat :=
  tr.count (Event.sys_free ptr)

/-- How often descriptor `fd` is closed in a trace. -/
def count_close (fd : Int) (tr : List Event) : Nat :=
  tr.count (Event.sys_close fd)

/-- The descriptors that are open. -/
def open_fds (w : World) : List Int :=
  w.fdtable.map Prod.fst

/-! ## Concrete states and environments -/

/-- A state with two files, nothing open and an empty table. -/
def w_start : World :=
  { php_sw_aio_callback := []
    php_swoole_aio_init := 0
    files := [("a.txt", [104, 105, 33]), ("b.txt", [98, 121, 101, 33])]
    fdtable := []
    heap := []
    aio_queue := []
    trace := [] }

/-- An environment in which every call succeeds: `open` hands out 3 and the
allocator returns address 4096. -/
def env_ok : Env :=
  { open_fd := some 3, fstat_ok := true, alloc := some 4096, aio_ret := 0,
    call_success := true }

/-- The environment of `env_ok`, with a failing `call_user_function_ex`. -/
def env_call_fails : Env :=
  { open_fd := some 3, fstat_ok := true, alloc := some 4096, aio_ret := 0,
    call_success := false }

/-- A one-shot read request with callback 7, registered under descriptor 3. -/
def req_read : swoole_async_request :=
  { callback := some 7, filename := "a.txt", fd := 3, offset := 0,
    type := AioType.SW_AIO_READ, once := 1, file_content := 4096, content_length := 3 }

/-- A state whose table holds `req_read`, the transfer already done. -/
def w_read_done : World :=
  { php_sw_aio_callback := [(3, req_read)]
    php_swoole_aio_init := 1
    files := [("a.txt", [104, 105, 33])]
    fdtable := [(3, ⟨"a.txt", [OFlag.O_RDONLY]⟩)]
    heap := [(4096, [104, 105, 33])]
    aio_queue := []
    trace := [] }

/-- A state whose only file, "big.bin", is one byte above the size ceiling. -/
def w_big : World :=
  { php_sw_aio_callback := []
    php_swoole_aio_init := 0
    files := [("big.bin", List.replicate 4194305 0)]
    fdtable := []
    heap := []
    aio_queue := []
    trace := [] }

/-! ## Helper lemmas -/

theorem assoc_find_set_self {κ α : Type} [DecidableEq κ] (l : List (κ × α)) (k : κ) (v : α) :
    assoc_find (assoc_set l k v) k = some v := by
  induction l with
  | nil => simp [assoc_set, assoc_find]
  | cons hd tl ih =>
    obtain ⟨k', v'⟩ := hd
    by_cases h : k' = k
    · simp [assoc_set, assoc_find, h]
    · simp [assoc_set, assoc_find, h, ih]

theorem queue_take_append {q : List AioOp} {fd : Int} (op : AioOp)
    (hq : queue_take q fd = none) (hfd : op.fd = fd) :
    queue_take (q ++ [op]) fd = some (op, q) := by
  induction q with
  | nil => simp [queue_take, hfd]
  | cons hd tl ih =>
    by_cases h : hd.fd = fd
    · simp [queue_take, h] at hq
    · simp only [queue_take, h, if_false] at hq
      have htl : queue_take tl fd = none := by
        cases hres : queue_take tl fd with
        | none => rfl
        | some p => rw [hres] at hq; simp at hq
      simp [queue_take, h, ih htl]

theorem calls_append (a b : List Event) : calls (a ++ b) = calls a ++ calls b := by
  induction a with
  | nil => simp [calls]
  | cons e t ih => cases e <;> simp [calls, ih]

theorem to_int_of_range {x : Int} (h1 : -2147483648 ≤ x) (h2 : x < 2147483648) :
    to_int x = x := by
  unfold to_int
  omega

theorem to_uint32_of_range {x : Int} (h1 : 0 ≤ x) (h2 : x < 4294967296) :
    to_uint32 x = x := by
  unfold to_uint32
  omega

/-- The aligned length is `st_size` plus what is missing to the page end, a
whole page when nothing is missing. -/
theorem buf_len_native {n p : Int} (hn1 : 1 ≤ n) (hn2 : n ≤ 4194304)
    (hp1 : 0 < p) (hp2 : p ≤ 1073741824) :
    readfile_buf_len ⟨true, p⟩ n = n + (p - n % p) := by
  have hmod : Int.tmod n p = n % p := Int.tmod_eq_emod (by omega) (by omega)
  have h0 : 0 ≤ n % p := Int.emod_nonneg n (by omega)
  have h1 : n % p < p := Int.emod_lt_of_pos n hp1
  simp only [readfile_buf_len, if_true, hmod]
  exact to_int_of_range (by omega) (by omega)

theorem buf_len_plain {n p : Int} (hn1 : 1 ≤ n) (hn2 : n ≤ 4194304) :
    readfile_buf_len ⟨false, p⟩ n = n := by
  simp only [readfile_buf_len]
  exact to_int_of_range (by omega) (by omega)

theorem heap_read_zend_error (w : World) (msg : Warning) (ptr : Nat) (len : Int) :
    heap_read (zend_error w msg) ptr len = heap_read w ptr len := rfl

theorem heap_read_head (w : World) (ptr : Nat) (block : List Nat)
    (rest : List (Nat × List Nat)) (len : Nat)
    (h : w.heap = (ptr, block) :: rest) (hlen : len ≤ block.length) :
    heap_read w ptr (len : Int) = some (block.take len) := by
  simp [heap_read, h, assoc_find, hlen]

theorem heap_write_fields (w : World) (ptr : Nat) (data : List Nat) :
    (heap_write w ptr data).php_sw_aio_callback = w.php_sw_aio_callback ∧
    (heap_write w ptr data).trace = w.trace := by
  unfold heap_write
  cases assoc_find w.heap ptr <;> simp

theorem callback_args_zend_error (w : World) (msg : Warning) (req : swoole_async_request)
    (ret : Int) : callback_args (zend_error w msg) req ret = callback_args w req ret := rfl

theorem zval_ptr_dtor_fields (w : World) (req : swoole_async_request) :
    (zval_ptr_dtor w req).php_sw_aio_callback = w.php_sw_aio_callback ∧
    (zval_ptr_dtor w req).fdtable = w.fdtable ∧
    (zval_ptr_dtor w req).files = w.files ∧
    calls (zval_ptr_dtor w req).trace = calls w.trace := by
  unfold zval_ptr_dtor
  split_ifs <;> simp [sys_free, emit, calls_append, calls]

/-- The completion dispatcher never writes the table. -/
theorem onComplete_table (env : Env) (w : World) (event : swAio_event) :
    (php_swoole_aio_onComplete env w event).php_sw_aio_callback = w.php_sw_aio_callback := by
  unfold php_swoole_aio_onComplete
  cases hfind : zend_hash_find w.php_sw_aio_callback event.fd with
  | none => rfl
  | some req =>
    simp only
    split_ifs <;> simp [zval_ptr_dtor_fields, zend_error, emit, sys_close, sys_free]

/-- A negative result is answered with "Aio Error" and nothing else. -/
theorem onComplete_negative (env : Env) (w : World) (event : swAio_event)
    (req : swoole_async_request)
    (hreq : zend_hash_find w.php_sw_aio_callback event.fd = some req)
    (hg : ¬ (req.callback = none ∧ req.type = AioType.SW_AIO_READ))
    (hneg : event.ret < 0) :
    php_swoole_aio_onComplete env w event
      = zend_error w (Warning.aio_error (-event.ret) (to_int event.ret)) := by
  unfold php_swoole_aio_onComplete
  simp only [hreq, hg, hneg, if_false, if_true]

/-- With the request found, a callback to call and `ret ≥ 0`, the dispatcher
calls `call_user_function_ex` exactly once, after at most one warning. -/
theorem onComplete_calls (env : Env) (w : World) (event : swAio_event)
    (req : swoole_async_request)
    (hreq : zend_hash_find w.php_sw_aio_callback event.fd = some req)
    (hguard : ¬ (req.callback = none ∧ req.type = AioType.SW_AIO_READ))
    (hret : 0 ≤ event.ret) :
    calls (php_swoole_aio_onComplete env w event).trace
      = calls w.trace ++ [(req.callback, callback_args w req event.ret)] := by
  have hnot : ¬ event.ret < 0 := by omega
  unfold php_swoole_aio_onComplete
  simp only [hreq, hguard, hnot, if_false]
  split_ifs <;>
    simp [zval_ptr_dtor_fields, zend_error, emit, sys_close, sys_free, calls_append,
      calls] <;> rfl

theorem check_aio_fields (w : World) :
    (php_swoole_check_aio w).php_sw_aio_callback = w.php_sw_aio_callback ∧
    (php_swoole_check_aio w).files = w.files ∧
    (php_swoole_check_aio w).fdtable = w.fdtable ∧
    (php_swoole_check_aio w).heap = w.heap ∧
    (php_swoole_check_aio w).aio_queue = w.aio_queue ∧
    calls (php_swoole_check_aio w).trace = calls w.trace := by
  unfold php_swoole_check_aio
  split_ifs <;> simp [emit, calls_append, calls]

theorem aio_submit_fields (env : Env) (w : World) (op : AioOp) :
    (swoole_aio_submit env w op).1 = env.aio_ret ∧
    (swoole_aio_submit env w op).2.php_sw_aio_callback = w.php_sw_aio_callback ∧
    (swoole_aio_submit env w op).2.files = w.files ∧
    (swoole_aio_submit env w op).2.fdtable = w.fdtable ∧
    (swoole_aio_submit env w op).2.heap = w.heap ∧
    (swoole_aio_submit env w op).2.aio_queue
      = (if env.aio_ret < 0 then w.aio_queue else w.aio_queue ++ [op]) ∧
    calls (swoole_aio_submit env w op).2.trace = calls w.trace := by
  unfold swoole_aio_submit
  split_ifs <;> simp [emit, calls_append, calls]

/-- What `swoole_async_readfile` leaves behind when the file exists, its size
passes both checks, and `open`, `fstat` and the allocator succeed. -/
theorem readfile_registers (cfg : Config) (env : Env) (w : World) (filename : String)
    (cb : Nat) (data : List Nat) (fd ptr : Nat)
    (hfile : assoc_find w.files filename = some data)
    (hn1 : 1 ≤ data.length) (hn2 : data.length ≤ 4194304)
    (hopen : env.open_fd = some fd) (hstat : env.fstat_ok = true)
    (halloc : env.alloc = some ptr) :
    (swoole_async_readfile cfg env w filename cb).1 = SW_CHECK_RETURN env.aio_ret ∧
    (swoole_async_readfile cfg env w filename cb).2.php_sw_aio_callback
      = assoc_set w.php_sw_aio_callback (fd : Int)
          { fd := fd, filename := filename, callback := some cb, file_content := ptr,
            once := 1, type := AioType.SW_AIO_READ,
            content_length := (data.length : Int), offset := 0 } ∧
    (swoole_async_readfile cfg env w filename cb).2.files = w.files ∧
    (swoole_async_readfile cfg env w filename cb).2.fdtable
      = ((fd : Int), ⟨filename, open_flag cfg⟩) :: w.fdtable ∧
    (swoole_async_readfile cfg env w filename cb).2.heap
      = (ptr, List.replicate (readfile_buf_len cfg data.length).toNat 0) :: w.heap ∧
    (swoole_async_readfile cfg env w filename cb).2.aio_queue
      = (if env.aio_ret < 0 then w.aio_queue
         else w.aio_queue ++ [⟨AioType.SW_AIO_READ, fd, ptr,
                readfile_buf_len cfg data.length, 0⟩]) ∧
    calls (swoole_async_readfile cfg env w filename cb).2.trace = calls w.trace := by
  have hfd : ¬ ((fd : Int) < 0) := by omega
  have hpos : ¬ ((data.length : Int) ≤ 0) := by omega
  have hmax : ¬ ((data.length : Int) > PHP_SWOOLE_AIO_MAX_FILESIZE) := by
    simp only [PHP_SWOOLE_AIO_MAX_FILESIZE]; omega
  have hu : to_uint32 (data.length : Int) = (data.length : Int) :=
    to_uint32_of_range (by omega) (by omega)
  have hstat' : sys_fstat env
      (emit { w with fdtable := ((fd : Int), ⟨filename, open_flag cfg⟩) :: w.fdtable }
        (Event.sys_open filename (open_flag cfg) fd)) fd = some (data.length : Int) := by
    simp [sys_fstat, hstat, emit, assoc_find, hfile]
  unfold swoole_async_readfile sys_open
  simp only [hopen, hfile, hfd, if_false, hstat', hpos, hmax]
  cases hnat : cfg.native_aio <;>
    simp [posix_memalign, sw_malloc, halloc, zend_hash_update, sizeof_int, hu,
      swoole_aio_read, aio_submit_fields, check_aio_fields, emit, calls_append, calls]

theorem buf_len_ge (cfg : Config) (n : Int) (hn1 : 1 ≤ n) (hn2 : n ≤ 4194304)
    (hcfg : cfg.native_aio = true → 0 < cfg.pagesize ∧ cfg.pagesize ≤ 1073741824) :
    n ≤ readfile_buf_len cfg n := by
  obtain ⟨nat, p⟩ := cfg
  cases nat with
  | false => rw [buf_len_plain hn1 hn2]
  | true =>
    obtain ⟨hp1, hp2⟩ := hcfg rfl
    simp only at hp1 hp2
    rw [buf_len_native hn1 hn2 hp1 hp2]
    have h1 : n % p < p := Int.emod_lt_of_pos n hp1
    omega

theorem can_read_open_flag (cfg : Config) : can_read (open_flag cfg) = true := by
  unfold open_flag can_read
  split_ifs <;> decide

theorem can_write_open_flag (cfg : Config) : can_write (open_flag cfg) = false := by
  unfold open_flag can_write
  split_ifs <;> decide

theorem creat_not_in_open_flag (cfg : Config) : OFlag.O_CREAT ∉ open_flag cfg := by
  unfold open_flag
  split_ifs <;> decide

/-- What `swoole_async_writefile` leaves behind when the payload passes both
checks, the file exists, and `open` and the allocator succeed. -/
theorem writefile_registers (cfg : Config) (env : Env) (w : World) (filename : String)
    (fcnt : List Nat) (cb : Option Nat) (old : List Nat) (fd ptr : Nat)
    (hfile : assoc_find w.files filename = some old)
    (hp1 : 1 ≤ fcnt.length) (hp2 : fcnt.length ≤ 4194304)
    (hopen : env.open_fd = some fd) (halloc : env.alloc = some ptr) :
    (swoole_async_writefile cfg env w filename fcnt cb).1 = SW_CHECK_RETURN env.aio_ret ∧
    (swoole_async_writefile cfg env w filename fcnt cb).2.php_sw_aio_callback
      = assoc_set w.php_sw_aio_callback (fd : Int)
          { fd := fd, filename := filename, callback := cb, file_content := ptr,
            once := 1, type := AioType.SW_AIO_WRITE,
            content_length := (fcnt.length : Int), offset := 0 } ∧
    (swoole_async_writefile cfg env w filename fcnt cb).2.files = w.files ∧
    (swoole_async_writefile cfg env w filename fcnt cb).2.fdtable
      = ((fd : Int), ⟨filename, open_flag cfg⟩) :: w.fdtable ∧
    (swoole_async_writefile cfg env w filename fcnt cb).2.heap = (ptr, fcnt) :: w.heap ∧
    (swoole_async_writefile cfg env w filename fcnt cb).2.aio_queue
      = (if env.aio_ret < 0 then w.aio_queue
         else w.aio_queue ++ [⟨AioType.SW_AIO_WRITE, fd, ptr, (fcnt.length : Int), 0⟩]) ∧
    calls (swoole_async_writefile cfg env w filename fcnt cb).2.trace = calls w.trace := by
  have hfd : ¬ ((fd : Int) < 0) := by omega
  have hti : to_int (fcnt.length : Int) = fcnt.length :=
    to_int_of_range (by omega) (by omega)
  have hpos : ¬ ((fcnt.length : Int) ≤ 0) := by omega
  have hmax : ¬ ((fcnt.length : Int) > PHP_SWOOLE_AIO_MAX_FILESIZE) := by
    simp only [PHP_SWOOLE_AIO_MAX_FILESIZE]; omega
  have hu : to_uint32 (fcnt.length : Int) = (fcnt.length : Int) :=
    to_uint32_of_range (by omega) (by omega)
  simp only [swoole_async_writefile, sys_open, hti, hopen, hfile, hfd, if_false, hpos, hmax]
  simp [posix_memalign, halloc, zend_hash_update, sizeof_int, hu, memcpy, heap_write,
    assoc_find, assoc_set, swoole_aio_write, aio_submit_fields, check_aio_fields, emit,
    calls_append, calls]

theorem mem_trace_check_aio {e : Event} {w : World} (h : e ∈ w.trace) :
    e ∈ (php_swoole_check_aio w).trace := by
  unfold php_swoole_check_aio
  split_ifs <;> simp [emit, h]

theorem mem_trace_submit {e : Event} {env : Env} {w : World} {op : AioOp} (h : e ∈ w.trace) :
    e ∈ (swoole_aio_submit env w op).2.trace := by
  unfold swoole_aio_submit
  split_ifs <;> simp [emit, h]

/-! ## C1 : read a whole file -/

/-- C1: for a path naming a file of `n` bytes, `1 ≤ n ≤ 4194304`, and a callback
`cb`, when `open`, `fstat`, the allocator and the AIO submission succeed (and,
in the aligned configuration, the page size is positive and at most `2^30`):
`swoole_async_readfile` returns `TRUE`; the AIO facility completes the read
with the event `(fd, n)`, the first `n` bytes of the request's buffer being
the file's bytes; and dispatching that event through
`php_swoole_aio_onComplete` adds exactly one callback invocation, of `cb`,
with the two arguments `filename` and the file's `n` bytes. -/
theorem C1_readfile_delivers_content (cfg : Config) (env : Env) (w : World)
    (filename : String) (cb : Nat) (data : List Nat) (fd ptr : Nat)
    (hfile : assoc_find w.files filename = some data)
    (hn1 : 1 ≤ data.length) (hn2 : data.length ≤ 4194304)
    (hopen : env.open_fd = some fd) (hstat : env.fstat_ok = true)
    (halloc : env.alloc = some ptr) (hsub : 0 ≤ env.aio_ret)
    (hcfg : cfg.native_aio = true → 0 < cfg.pagesize ∧ cfg.pagesize ≤ 1073741824)
    (hq : queue_take w.aio_queue fd = none) :
    (swoole_async_readfile cfg env w filename cb).1 = true ∧
    ∃ w2, aio_complete (swoole_async_readfile cfg env w filename cb).2 fd
        = some (w2, ⟨fd, data.length⟩) ∧
      heap_read w2 ptr data.length = some data ∧
      ∀ env2, calls (php_swoole_aio_onComplete env2 w2 ⟨fd, data.length⟩).trace
        = calls w.trace ++ [(some cb, [zval.filename filename, zval.stringl data])] := by
  obtain ⟨hr, htab, hfiles, hfdt, hheap, hqueue, hcalls⟩ :=
    readfile_registers cfg env w filename cb data fd ptr hfile hn1 hn2 hopen hstat halloc
  generalize swoole_async_readfile cfg env w filename cb = res at hr htab hfiles hfdt hheap hqueue hcalls
  obtain ⟨r, w1⟩ := res
  simp only at hr htab hfiles hfdt hheap hqueue hcalls
  have hnneg : ¬ env.aio_ret < 0 := by omega
  have hlen : (data.length : Int) ≤ readfile_buf_len cfg data.length :=
    buf_len_ge cfg _ (by omega) (by omega) hcfg
  have hlen' : data.length ≤ (readfile_buf_len cfg data.length).toNat := by omega
  rw [if_neg hnneg] at hqueue
  have htake := queue_take_append
    (⟨AioType.SW_AIO_READ, fd, ptr, readfile_buf_len cfg data.length, 0⟩ : AioOp) hq rfl
  rw [← hqueue] at htake
  have hti : to_int (data.length : Int) = data.length :=
    to_int_of_range (by omega) (by omega)
  have hheap2 : (heap_write { w1 with aio_queue := w.aio_queue } ptr data).heap
      = (ptr, data ++ (List.replicate (readfile_buf_len cfg data.length).toNat 0).drop
          data.length) :: w.heap := by
    simp [heap_write, hheap, assoc_find, assoc_set]
  have hrd2 : heap_read (heap_write { w1 with aio_queue := w.aio_queue } ptr data) ptr
      (data.length : Int) = some data := by
    rw [heap_read_head _ ptr _ w.heap data.length hheap2 (by simp)]
    simp
  refine ⟨?_, ?_⟩
  · simp [hr, SW_CHECK_RETURN, hnneg]
  · refine ⟨heap_write { w1 with aio_queue := w.aio_queue } ptr data, ?_, hrd2, ?_⟩
    · simp [aio_complete, htake, hfdt, hfiles, hfile, assoc_find, can_read_open_flag,
        List.take_of_length_le hlen', heap_read, hheap, hlen']
    · intro env2
      have hfind : zend_hash_find
          (heap_write { w1 with aio_queue := w.aio_queue } ptr data).php_sw_aio_callback
          (⟨fd, data.length⟩ : swAio_event).fd
          = some { fd := fd, filename := filename, callback := some cb, file_content := ptr,
                   once := 1, type := AioType.SW_AIO_READ,
                   content_length := (data.length : Int), offset := 0 } := by
        simp [heap_write_fields, zend_hash_find, htab, assoc_find_set_self]
      rw [onComplete_calls env2 _ _ _ hfind (by simp) (by simp)]
      simp [callback_args, ZVAL_STRINGL, hti, hrd2, hcalls, heap_write_fields]

/-- C1 witness: the three bytes of "a.txt", aligned configuration with pages of
4096 bytes. -/
theorem C1_readfile_delivers_content_witness :
    (swoole_async_readfile ⟨true, 4096⟩ env_ok w_start "a.txt" 7).1 = true ∧
    ∃ w2, aio_complete (swoole_async_readfile ⟨true, 4096⟩ env_ok w_start "a.txt" 7).2 3
        = some (w2, ⟨3, 3⟩) ∧
      heap_read w2 4096 3 = some [104, 105, 33] ∧
      ∀ env2, calls (php_swoole_aio_onComplete env2 w2 ⟨3, 3⟩).trace
        = [(some 7, [zval.filename "a.txt", zval.stringl [104, 105, 33]])] :=
  C1_readfile_delivers_content ⟨true, 4096⟩ env_ok w_start "a.txt" 7 [104, 105, 33] 3 4096
    (by decide) (by decide) (by decide) (by decide) (by decide) (by decide) (by decide)
    (by decide) (by decide)

/-! ## C2 : write a whole file -/

/-- C2 (the code departs from it): `swoole_async_writefile` opens the path with
the flags of the read function, `O_RDONLY` (with `O_DIRECT` in the aligned
configuration), without write access and without `O_CREAT`.  For a payload of
`1 .. 4194304` bytes, with `open`, the allocator and the submission
succeeding: a path that names no file makes the function return `FALSE`
with the file system unchanged; a path that names a file makes it return
`TRUE` and submit the write of the payload, full length, offset 0, but the AIO
facility completes it with `-EBADF`, the file keeps its old content, and the
dispatcher reports "Aio Error" without invoking the callback. -/
theorem C2_writefile_opens_read_only (cfg : Config) (env : Env) (w : World)
    (filename : String) (fcnt : List Nat) (cb : Option Nat) (fd ptr : Nat)
    (hp1 : 1 ≤ fcnt.length) (hp2 : fcnt.length ≤ 4194304)
    (hopen : env.open_fd = some fd) (halloc : env.alloc = some ptr)
    (hsub : 0 ≤ env.aio_ret) (hq : queue_take w.aio_queue fd = none) :
    can_write (open_flag cfg) = false ∧ OFlag.O_CREAT ∉ open_flag cfg ∧
    (assoc_find w.files filename = none →
      (swoole_async_writefile cfg env w filename fcnt cb).1 = false ∧
      (swoole_async_writefile cfg env w filename fcnt cb).2.files = w.files ∧
      (swoole_async_writefile cfg env w filename fcnt cb).2.trace
        = w.trace ++ [Event.sys_open filename (open_flag cfg) (-1),
            Event.zend_error Warning.writefile_open_failed]) ∧
    (∀ old, assoc_find w.files filename = some old →
      (swoole_async_writefile cfg env w filename fcnt cb).1 = true ∧
      Event.sys_open filename (open_flag cfg) fd
        ∈ (swoole_async_writefile cfg env w filename fcnt cb).2.trace ∧
      (swoole_async_writefile cfg env w filename fcnt cb).2.aio_queue
        = w.aio_queue ++ [⟨AioType.SW_AIO_WRITE, fd, ptr, (fcnt.length : Int), 0⟩] ∧
      heap_read (swoole_async_writefile cfg env w filename fcnt cb).2 ptr fcnt.length
        = some fcnt ∧
      ∃ w2, aio_complete (swoole_async_writefile cfg env w filename fcnt cb).2 fd
          = some (w2, ⟨fd, -EBADF⟩) ∧
        w2.files = w.files ∧
        assoc_find w2.files filename = some old ∧
        ∀ env2, php_swoole_aio_onComplete env2 w2 ⟨fd, -EBADF⟩
            = zend_error w2 (Warning.aio_error 9 (-9)) ∧
          calls (php_swoole_aio_onComplete env2 w2 ⟨fd, -EBADF⟩).trace = calls w.trace) := by
  have hfd : ¬ ((fd : Int) < 0) := by omega
  have hnneg : ¬ env.aio_ret < 0 := by omega
  have hti : to_int (fcnt.length : Int) = fcnt.length :=
    to_int_of_range (by omega) (by omega)
  have hpos : ¬ ((fcnt.length : Int) ≤ 0) := by omega
  have hmax : ¬ ((fcnt.length : Int) > PHP_SWOOLE_AIO_MAX_FILESIZE) := by
    simp only [PHP_SWOOLE_AIO_MAX_FILESIZE]; omega
  refine ⟨can_write_open_flag cfg, creat_not_in_open_flag cfg, ?_, ?_⟩
  · intro hnone
    simp only [swoole_async_writefile, sys_open, hti, hopen, hnone, if_false, hpos, hmax,
      creat_not_in_open_flag cfg]
    simp [zend_error, emit]
  · intro old hfile
    obtain ⟨hr, htab, hfiles, hfdt, hheap, hqueue, hcalls⟩ :=
      writefile_registers cfg env w filename fcnt cb old fd ptr hfile hp1 hp2 hopen halloc
    have htrace : Event.sys_open filename (open_flag cfg) fd
        ∈ (swoole_async_writefile cfg env w filename fcnt cb).2.trace := by
      have h4 : ¬ ((4 : Nat) = 0) := by decide
      simp only [swoole_async_writefile, sys_open, hti, hopen, hfile, hfd, if_false, hpos, hmax,
        posix_memalign, halloc, zend_hash_update, sizeof_int, h4, swoole_aio_write]
      apply mem_trace_submit
      apply mem_trace_check_aio
      simp [memcpy, heap_write, emit, assoc_find]
    generalize swoole_async_writefile cfg env w filename fcnt cb = res
      at hr htab hfiles hfdt hheap hqueue hcalls htrace
    obtain ⟨r, w1⟩ := res
    simp only at hr htab hfiles hfdt hheap hqueue hcalls htrace
    rw [if_neg hnneg] at hqueue
    have htake := queue_take_append
      (⟨AioType.SW_AIO_WRITE, fd, ptr, (fcnt.length : Int), 0⟩ : AioOp) hq rfl
    rw [← hqueue] at htake
    refine ⟨?_, htrace, hqueue, ?_, ?_⟩
    · simp [hr, SW_CHECK_RETURN, hnneg]
    · rw [heap_read_head w1 ptr fcnt w.heap fcnt.length hheap (le_refl _)]
      simp
    · refine ⟨{ w1 with aio_queue := w.aio_queue }, ?_, hfiles, ?_, ?_⟩
      · simp [aio_complete, htake, hfdt, hfiles, hfile, assoc_find, can_write_open_flag]
      · simp [hfiles, hfile]
      · intro env2
        have hfind : zend_hash_find
            ({ w1 with aio_queue := w.aio_queue } : World).php_sw_aio_callback
            (⟨fd, -EBADF⟩ : swAio_event).fd
            = some { fd := fd, filename := filename, callback := cb, file_content := ptr,
                     once := 1, type := AioType.SW_AIO_WRITE,
                     content_length := (fcnt.length : Int), offset := 0 } := by
          simp [zend_hash_find, htab, assoc_find_set_self]
        have hneg := onComplete_negative env2 _ _ _ hfind (by simp) (by simp [EBADF])
        rw [hneg]
        refine ⟨by simp [EBADF, to_int], ?_⟩
        simp [zend_error, emit, calls_append, calls, hcalls]

/-- C2 at the failing input: the payload `[1, 2]` for the existing "a.txt";
after the completion the file still holds its old three bytes. -/
theorem C2_writefile_opens_read_only_witness :
    (swoole_async_writefile ⟨false, 4096⟩ env_ok w_start "a.txt" [1, 2] (some 5)).1 = true ∧
    ∃ w2, aio_complete
        (swoole_async_writefile ⟨false, 4096⟩ env_ok w_start "a.txt" [1, 2] (some 5)).2 3
        = some (w2, ⟨3, -9⟩) ∧
      assoc_find w2.files "a.txt" = some [104, 105, 33] ∧
      ∀ env2, calls (php_swoole_aio_onComplete env2 w2 ⟨3, -9⟩).trace = [] :=
  have h := (C2_writefile_opens_read_only ⟨false, 4096⟩ env_ok w_start "a.txt" [1, 2] (some 5)
    3 4096 (by decide) (by decide) (by decide) (by decide) (by decide) (by decide)).2.2.2
    [104, 105, 33] (by decide)
  ⟨h.1, h.2.2.2.2.elim fun w2 hw => ⟨w2, hw.1, hw.2.2.1, fun env2 => (hw.2.2.2 env2).2⟩⟩

/-! ## C3 : a second submission on a registered descriptor -/

/-- C4 (the code departs from it): for a one-shot request whose completion
reaches `call_user_function_ex` (`ret ≥ 0`, not a read without callback).
When the call reports `FAILURE` the dispatcher returns after the warning
"handler error" and neither frees the block nor closes the descriptor: heap
and descriptor table are what they were.  When the call reports `SUCCESS` the
descriptor is closed once; the block of a write is released once (`free`),
the block of a read twice (`free`, then `zval_ptr_dtor(&zcontent)` on the
string zval that points at it). -/
theorem C4_release_count_of_one_shot (env : Env) (w : World) (event : swAio_event)
    (req : swoole_async_request)
    (hreq : zend_hash_find w.php_sw_aio_callback event.fd = some req)
    (honce : req.once = 1)
    (hguard : ¬ (req.callback = none ∧ req.type = AioType.SW_AIO_READ))
    (hret : 0 ≤ event.ret) :
    (env.call_success = false →
      count_free req.file_content (php_swoole_aio_onComplete env w event).trace
        = count_free req.file_content w.trace ∧
      count_close event.fd (php_swoole_aio_onComplete env w event).trace
        = count_close event.fd w.trace ∧
      (php_swoole_aio_onComplete env w event).heap = w.heap ∧
      (php_swoole_aio_onComplete env w event).fdtable = w.fdtable ∧
      (php_swoole_aio_onComplete env w event).trace.getLast?
        = some (Event.zend_error Warning.handler_error)) ∧
    (env.call_success = true →
      count_close event.fd (php_swoole_aio_onComplete env w event).trace
        = count_close event.fd w.trace + 1 ∧
      (php_swoole_aio_onComplete env w event).fdtable = assoc_erase w.fdtable event.fd ∧
      (req.type = AioType.SW_AIO_WRITE →
        count_free req.file_content (php_swoole_aio_onComplete env w event).trace
          = count_free req.file_content w.trace + 1 ∧
        (php_swoole_aio_onComplete env w event).heap
          = assoc_erase w.heap req.file_content) ∧
      (req.type = AioType.SW_AIO_READ →
        count_free req.file_content (php_swoole_aio_onComplete env w event).trace
          = count_free req.file_content w.trace + 2 ∧
        (php_swoole_aio_onComplete env w event).heap
          = assoc_erase (assoc_erase w.heap req.file_content) req.file_content)) := by
  have hnot : ¬ event.ret < 0 := by omega
  constructor
  · intro hf
    unfold php_swoole_aio_onComplete
    simp only [hreq, hguard, hnot, if_false]
    split_ifs <;>
      simp_all [zend_error, emit, sys_close, sys_free, count_free, count_close]
  · intro hs
    unfold php_swoole_aio_onComplete
    simp only [hreq, hguard, hnot, if_false]
    cases htype : req.type <;> split_ifs <;>
      simp_all [zval_ptr_dtor, zend_error, emit, sys_close, sys_free, count_free, count_close]

/-- C4 at the failing inputs: the read request under descriptor 3 completes with
`ret = 3`.  With `call_user_function_ex` reporting `FAILURE`, block 4096 is
not released and descriptor 3 stays open; with `SUCCESS`, block 4096 is
released twice and descriptor 3 closed once. -/
theorem C4_release_count_of_one_shot_witness :
    (count_free 4096 (php_swoole_aio_onComplete env_call_fails w_read_done ⟨3, 3⟩).trace = 0 ∧
      count_close 3 (php_swoole_aio_onComplete env_call_fails w_read_done ⟨3, 3⟩).trace = 0 ∧
      (php_swoole_aio_onComplete env_call_fails w_read_done ⟨3, 3⟩).heap
        = [(4096, [104, 105, 33])] ∧
      (php_swoole_aio_onComplete env_call_fails w_read_done ⟨3, 3⟩).fdtable
        = [(3, ⟨"a.txt", [OFlag.O_RDONLY]⟩)]) ∧
    (count_free 4096 (php_swoole_aio_onComplete env_ok w_read_done ⟨3, 3⟩).trace = 2 ∧
      count_close 3 (php_swoole_aio_onComplete env_ok w_read_done ⟨3, 3⟩).trace = 1) :=
  have hf := (C4_release_count_of_one_shot env_call_fails w_read_done ⟨3, 3⟩ req_read
    (by decide) (by decide) (by decide) (by decide)).1 (by decide)
  have hs := (C4_release_count_of_one_shot env_ok w_read_done ⟨3, 3⟩ req_read
    (by decide) (by decide) (by decide) (by decide)).2 (by decide)
  ⟨⟨hf.1, hf.2.1, hf.2.2.1, hf.2.2.2.1⟩, (hs.2.2.2 (by decide)).1, hs.1⟩

/-! ## C5 : the table entry after a completion -/

/-- C5, as stated, fails: after the completion of the read request under
descriptor 3 the table is the table it was and still holds the request under
descriptor 3; the entry has not been taken. -/
theorem C5_counterexample :
    zend_hash_find w_read_done.php_sw_aio_callback 3 = some req_read ∧
    (php_swoole_aio_onComplete env_ok w_read_done ⟨3, 3⟩).php_sw_aio_callback
      = [(3, req_read)] ∧
    zend_hash_find
      (php_swoole_aio_onComplete env_ok w_read_done ⟨3, 3⟩).php_sw_aio_callback 3
      ≠ none := by
  decide

/-- C5, amended: `php_swoole_aio_onComplete` only looks the request up
(`zend_hash_find`) and never removes it.  For every state whose table holds a
request under `d`, every result code and every outcome of the callback, the
table after the completion event for `d` is the table before it, and the
lookup of `d` still yields the same request. -/
theorem C5_entry_survives_completion (env : Env) (w : World) (d ret : Int)
    (req : swoole_async_request)
    (hreq : zend_hash_find w.php_sw_aio_callback d = some req) :
    (php_swoole_aio_onComplete env w ⟨d, ret⟩).php_sw_aio_callback
      = w.php_sw_aio_callback ∧
    zend_hash_find (php_swoole_aio_onComplete env w ⟨d, ret⟩).php_sw_aio_callback d
      = some req ∧
    (∀ k, zend_hash_find (php_swoole_aio_onComplete env w ⟨d, ret⟩).php_sw_aio_callback k
      = zend_hash_find w.php_sw_aio_callback k) := by
  have htab := onComplete_table env w ⟨d, ret⟩
  refine ⟨htab, ?_, ?_⟩
  · rw [htab]; exact hreq
  · intro k; rw [htab]

/-- C5 witness: the completion of the read request under descriptor 3. -/
theorem C5_entry_survives_completion_witness :
    (php_swoole_aio_onComplete env_ok w_read_done ⟨3, 3⟩).php_sw_aio_callback
      = w_read_done.php_sw_aio_callback ∧
    zend_hash_find
      (php_swoole_aio_onComplete env_ok w_read_done ⟨3, 3⟩).php_sw_aio_callback 3
      = some req_read :=
  have h := C5_entry_survives_completion env_ok w_read_done 3 3 req_read (by decide)
  ⟨h.1, h.2.1⟩

/-! ## C6 : a file above the size ceiling -/

/-- C6 (the code departs from it): for a path whose file is larger than 4194304
bytes, with `open` and `fstat` succeeding, `swoole_async_readfile` returns
`FALSE`, registers nothing and submits nothing, but returns right after the
warning "too big": it never calls `close`, and the descriptor it opened is
still in the descriptor table, one more open descriptor than before. -/
theorem C6_too_big_returns_without_close (cfg : Config) (env : Env) (w : World)
    (filename : String) (cb : Nat) (data : List Nat) (fd : Nat)
    (hfile : assoc_find w.files filename = some data)
    (hbig : 4194304 < data.length)
    (hopen : env.open_fd = some fd) (hstat : env.fstat_ok = true) :
    (swoole_async_readfile cfg env w filename cb).1 = false ∧
    (swoole_async_readfile cfg env w filename cb).2.php_sw_aio_callback
      = w.php_sw_aio_callback ∧
    (swoole_async_readfile cfg env w filename cb).2.aio_queue = w.aio_queue ∧
    (swoole_async_readfile cfg env w filename cb).2.trace
      = w.trace ++ [Event.sys_open filename (open_flag cfg) fd,
          Event.zend_error
            (Warning.readfile_too_big data.length PHP_SWOOLE_AIO_MAX_FILESIZE)] ∧
    (swoole_async_readfile cfg env w filename cb).2.fdtable
      = ((fd : Int), ⟨filename, open_flag cfg⟩) :: w.fdtable ∧
    open_fds (swoole_async_readfile cfg env w filename cb).2 = (fd : Int) :: open_fds w ∧
    open_fds (swoole_async_readfile cfg env w filename cb).2 ≠ open_fds w := by
  have hfd : ¬ ((fd : Int) < 0) := by omega
  have hpos : ¬ ((data.length : Int) ≤ 0) := by omega
  have hmax : (data.length : Int) > PHP_SWOOLE_AIO_MAX_FILESIZE := by
    simp only [PHP_SWOOLE_AIO_MAX_FILESIZE]; omega
  have hstat' : sys_fstat env
      (emit { w with fdtable := ((fd : Int), ⟨filename, open_flag cfg⟩) :: w.fdtable }
        (Event.sys_open filename (open_flag cfg) fd)) fd = some (data.length : Int) := by
    simp [sys_fstat, hstat, emit, assoc_find, hfile]
  simp only [swoole_async_readfile, sys_open, hopen, hfile, hfd, if_false, hstat', hpos, hmax,
    if_true]
  simp [zend_error, emit, open_fds]

/-- C6 at the failing input: "big.bin" of 4194305 bytes; `FALSE` is returned
and descriptor 3 is left open. -/
theorem C6_too_big_returns_without_close_witness :
    (swoole_async_readfile ⟨false, 4096⟩ env_ok w_big "big.bin" 7).1 = false ∧
    open_fds (swoole_async_readfile ⟨false, 4096⟩ env_ok w_big "big.bin" 7).2 = [3] ∧
    open_fds w_big = [] :=
  have h := C6_too_big_returns_without_close ⟨false, 4096⟩ env_ok w_big "big.bin" 7
    (List.replicate 4194305 0) 3 rfl
    (Nat.lt_of_lt_of_eq (by decide) (List.length_replicate 4194305 0).symm) rfl rfl
  ⟨h.1, h.2.2.2.2.2.1, rfl⟩

/-! ## C7 : an empty file -/

/-- C7: for a path whose file is empty, `swoole_async_readfile` returns `FALSE`
whatever the environment does, the table `php_sw_aio_callback` and the AIO
queue are what they were, and none of the events it adds to the trace is an
AIO submission. -/
theorem C7_empty_file_rejected (cfg : Config) (env : Env) (w : World) (filename : String)
    (cb : Nat) (hfile : assoc_find w.files filename = some []) :
    (swoole_async_readfile cfg env w filename cb).1 = false ∧
    (swoole_async_readfile cfg env w filename cb).2.php_sw_aio_callback
      = w.php_sw_aio_callback ∧
    (swoole_async_readfile cfg env w filename cb).2.aio_queue = w.aio_queue ∧
    ∃ evs, (swoole_async_readfile cfg env w filename cb).2.trace = w.trace ++ evs ∧
      ∀ op r, Event.swoole_aio_submit op r ∉ evs := by
  unfold swoole_async_readfile sys_open
  cases hopen : env.open_fd with
  | none =>
    simp [zend_error, emit]
  | some fd =>
    have hfd : ¬ ((fd : Int) < 0) := by omega
    cases hstat : env.fstat_ok with
    | false =>
      simp [hfile, hfd, sys_fstat, hstat, zend_error, emit]
    | true =>
      simp [hfile, hfd, sys_fstat, hstat, zend_error, emit, assoc_find]

/-- C7 witness: an empty file "empty.txt". -/
theorem C7_empty_file_rejected_witness :
    (swoole_async_readfile ⟨false, 4096⟩ env_ok
      { w_start with files := [("empty.txt", [])] } "empty.txt" 7).1 = false :=
  (C7_empty_file_rejected ⟨false, 4096⟩ env_ok
    { w_start with files := [("empty.txt", [])] } "empty.txt" 7 (by decide)).1

/-! ## C8 : a completion without table entry -/

/-- C8: when the descriptor of a completion event has no entry in
`php_sw_aio_callback`, `php_swoole_aio_onComplete` returns the state it was
given with exactly one more trace event, the warning "callback not found[1]":
no callback is invoked, no block freed, no descriptor closed, and the table,
heap, descriptor table, files and AIO queue are unchanged. -/
theorem C8_missing_request_only_warns (env : Env) (w : World) (event : swAio_event)
    (hmiss : zend_hash_find w.php_sw_aio_callback event.fd = none) :
    php_swoole_aio_onComplete env w event
        = { w with trace := w.trace ++ [Event.zend_error Warning.callback_not_found_1] } ∧
    (php_swoole_aio_onComplete env w event).php_sw_aio_callback = w.php_sw_aio_callback ∧
    calls (php_swoole_aio_onComplete env w event).trace = calls w.trace ∧
    (∀ ptr, count_free ptr (php_swoole_aio_onComplete env w event).trace
        = count_free ptr w.trace) ∧
    (∀ fd, count_close fd (php_swoole_aio_onComplete env w event).trace
        = count_close fd w.trace) := by
  have h : php_swoole_aio_onComplete env w event
      = { w with trace := w.trace ++ [Event.zend_error Warning.callback_not_found_1] } := by
    simp [php_swoole_aio_onComplete, hmiss, zend_error, emit]
  refine ⟨h, ?_, ?_, ?_, ?_⟩
  · rw [h]
  · rw [h]; simp [calls_append, calls]
  · intro ptr; rw [h]; simp [count_free]
  · intro fd; rw [h]; simp [count_close]

/-- C8 witness: a completion for descriptor 3 on an empty table. -/
theorem C8_missing_request_only_warns_witness :
    php_swoole_aio_onComplete env_ok w_start ⟨3, 5⟩
      = { w_start with trace := [Event.zend_error Warning.callback_not_found_1] } :=
  (C8_missing_request_only_warns env_ok w_start ⟨3, 5⟩ (by decide)).1

/-! ## C9 : the buffer length of `swoole_async_readfile` -/

/-- C9, as stated, fails: with a file of 4096 bytes and pages of 4096 bytes the
aligned configuration computes `buf_len = 8192`, which is neither the file
size nor less than one page above it. -/
theorem C9_counterexample :
    readfile_buf_len ⟨true, 4096⟩ 4096 = 8192 ∧
    readfile_buf_len ⟨true, 4096⟩ 4096 ≠ 4096 ∧
    ¬ (readfile_buf_len ⟨true, 4096⟩ 4096 - 4096 < 4096) := by
  decide

/-- C9, amended: in the aligned configuration, for a file size `1 ≤ n ≤ 4194304`
and a page size `0 < p ≤ 2^30`, `buf_len` is the smallest multiple of `p`
strictly greater than `n` (so `0 < buf_len - n ≤ p`, a whole extra page when
`n` is already a multiple of `p`); in the other configuration `buf_len = n`. -/
theorem C9_buf_len_next_page (n p : Int) (hn1 : 1 ≤ n) (hn2 : n ≤ 4194304)
    (hp1 : 0 < p) (hp2 : p ≤ 1073741824) :
    (p ∣ readfile_buf_len ⟨true, p⟩ n ∧
      n < readfile_buf_len ⟨true, p⟩ n ∧
      readfile_buf_len ⟨true, p⟩ n - n ≤ p ∧
      (∀ m : Int, p ∣ m → n < m → readfile_buf_len ⟨true, p⟩ n ≤ m) ∧
      (p ∣ n → readfile_buf_len ⟨true, p⟩ n = n + p)) ∧
    readfile_buf_len ⟨false, p⟩ n = n := by
  have hb := buf_len_native hn1 hn2 hp1 hp2
  have h0 : 0 ≤ n % p := Int.emod_nonneg n (by omega)
  have h1 : n % p < p := Int.emod_lt_of_pos n hp1
  have hdiv : n + (p - n % p) = p * (n / p + 1) := by
    have := Int.emod_add_ediv n p
    linarith
  refine ⟨⟨?_, ?_, ?_, ?_, ?_⟩, buf_len_plain hn1 hn2⟩
  · rw [hb, hdiv]; exact Dvd.intro _ rfl
  · rw [hb]; omega
  · rw [hb]; omega
  · intro m hm hlt
    obtain ⟨k, rfl⟩ := hm
    rw [hb, hdiv]
    have hk : n / p < k := Int.ediv_lt_of_lt_mul hp1 (by linarith)
    exact mul_le_mul_of_nonneg_left (by omega) (by omega)
  · intro hd
    rw [hb, Int.emod_eq_zero_of_dvd hd]
    omega

/-- C9 witness: a file of 5000 bytes and pages of 4096 bytes. -/
theorem C9_buf_len_next_page_witness :
    (((4096 : Int) ∣ readfile_buf_len ⟨true, 4096⟩ 5000 ∧
      5000 < readfile_buf_len ⟨true, 4096⟩ 5000 ∧
      readfile_buf_len ⟨true, 4096⟩ 5000 - 5000 ≤ 4096 ∧
      (∀ m : Int, 4096 ∣ m → 5000 < m → readfile_buf_len ⟨true, 4096⟩ 5000 ≤ m) ∧
      ((4096 : Int) ∣ 5000 → readfile_buf_len ⟨true, 4096⟩ 5000 = 5000 + 4096)) ∧
    readfile_buf_len ⟨false, 4096⟩ 5000 = 5000) :=
  C9_buf_len_next_page 5000 4096 (by decide) (by decide) (by decide) (by decide)

/-! ## C10 : negative and short results -/

end SwooleAsync
